/-
Verification of the city-resolution and filter/render pipeline of the
Green Map application (src/app.js together with the constant tables of
data.template.js).

The JavaScript is shallowly embedded: spreadsheet cell values are
modelled by the inductive type `JVal` (JSON null, string, number);
JS numbers are modelled by `Rat` (the claims only exercise the
integer/decimal fragment); a JS number that is NaN is modelled by
`Option Rat = none`.  City and company cells are modelled as
`Option String` (the program applies string methods to them, so any
non-null non-string value would throw before the behaviour under
study is reached).  `Map` is modelled as an association list whose
`set` keeps the position of an existing key, exactly like a JS `Map`.
String operations model the ASCII fragment of `toLowerCase`, the core
character class of `\s`, and `String.prototype.trim`/`includes`.
-/
import Mathlib

namespace GreenMap

/-- A JavaScript value as it occurs in the data cells of the app:
JSON `null` (also standing for `undefined`, which the row loader
already collapses into `null` via `?? null`), a string, or a number. -/
inductive JVal where
  | null : JVal
  | str (s : String) : JVal
  | num (q : Rat) : JVal
deriving DecidableEq, Repr

/-- JS truthiness on `JVal`: `null`, the empty string and `0` are falsy. -/
def jtruthy : JVal → Bool
  | .null => false
  | .str s => s ≠ ""
  | .num q => q ≠ 0

/-- JS `a || b` on values: the first operand when truthy, else the second. -/
def jtruthyOr (a b : JVal) : JVal := if jtruthy a then a else b

/-- JS strict equality `v === s` between an arbitrary value and a string:
only a string with the same characters compares equal. -/
def jvalEqStr (v : JVal) (s : String) : Bool :=
  match v with
  | .str t => t == s
  | _ => false

/-- JS `String(v)` on the modelled values.  Renders `null` as `"null"`
and an integer as its decimal numeral, matching JS on the integer
fragment that the program exercises (the `Year` column). -/
def jstring : JVal → String
  | .null => "null"
  | .str s => s
  | .num q => if q.den = 1 then toString q.num else toString q.num ++ "/" ++ toString q.den

/-- The core of the JS `\s` character class (the characters that occur
in the data universe of the app). -/
def isWs (c : Char) : Bool := c == ' ' || c == '\t' || c == '\n' || c == '\r'

/-- The ASCII case table behind `toLowerCase`. -/
def asciiPairs : List (Char × Char) :=
  [('A','a'), ('B','b'), ('C','c'), ('D','d'), ('E','e'), ('F','f'), ('G','g'),
   ('H','h'), ('I','i'), ('J','j'), ('K','k'), ('L','l'), ('M','m'), ('N','n'),
   ('O','o'), ('P','p'), ('Q','q'), ('R','r'), ('S','s'), ('T','t'), ('U','u'),
   ('V','v'), ('W','w'), ('X','x'), ('Y','y'), ('Z','z')]

/-- Lower-case one character (ASCII fragment of JS `toLowerCase`). -/
def lowerChar (c : Char) : Char :=
  ((asciiPairs.find? (fun p => p.1 == c)).map (fun p => p.2)).getD c

/-- JS `s.toLowerCase()` (ASCII fragment). -/
def lowerStr (s : String) : String := ⟨s.data.map lowerChar⟩

/-- JS `s.replace(/\s+/g, '')`: replacing every whitespace run by the
empty string removes exactly the whitespace characters. -/
def stripWs (s : String) : String := ⟨s.data.filter (fun c => !isWs c)⟩

/-- JS `s.trim()`: drop whitespace from both ends. -/
def jsTrim (s : String) : String :=
  ⟨((s.data.dropWhile isWs).reverse.dropWhile isWs).reverse⟩

/-- app.js line 12: `const normalize = s => (s || '').toLowerCase().replace(/\s+/g, '')`.
The argument is a city cell: a string or `null`/`undefined` (`none`);
a falsy input is replaced by `''` before the string methods run. -/
def normalize (v : Option String) : String := stripWs (lowerStr (v.getD ""))

/-- Is `needle` a prefix of `hay`? (helper for `jsIncludes`). -/
def prefixEq : List Char → List Char → Bool
  | [], _ => true
  | _ :: _, [] => false
  | a :: as, b :: bs => a == b && prefixEq as bs

/-- JS `hay.includes(needle)`: contiguous substring test. -/
def jsIncludes (needle : List Char) : List Char → Bool
  | [] => needle.isEmpty
  | c :: rest => prefixEq needle (c :: rest) || jsIncludes needle rest

/-- Case-insensitive substring: `t` occurs in `s` up to letter case. -/
def ciSubstr (t s : String) : Bool :=
  jsIncludes (lowerStr t).data (lowerStr s).data

/-- JS unary `+v` numeric coercion on the modelled values; `none` is NaN.
String coercion is modelled on the integer-numeral fragment (a string of
only whitespace coerces to `0`, an integer numeral to its value, anything
else to NaN); the sources exercised by the claims carry numeric `lat`/`lng`. -/
def jToNum : JVal → Option Rat
  | .null => some 0
  | .num q => some q
  | .str s =>
    let t := jsTrim s
    if t = "" then some 0
    else match t.toInt? with
         | some n => some (n : Rat)
         | none => none

/-- A value of the city index: app.js line 37 / 44,
`{ lat: ..., lon: ..., state: ... }`. -/
structure CityEntry where
  lat : Option Rat
  lon : Option Rat
  state : JVal
deriving DecidableEq, Repr

/-- The `CITY_INDEX` JS `Map`, as an association list in insertion order. -/
abbrev CityMap := List (String × CityEntry)

/-- JS `Map.set`: update in place when the key exists (keeping its
position), append otherwise. -/
def mapSet (m : CityMap) (k : String) (v : CityEntry) : CityMap :=
  if m.any (fun p => p.1 == k) then
    m.map (fun p => if p.1 == k then (k, v) else p)
  else m ++ [(k, v)]

/-- JS `Map.get`: the value at the key, or `undefined` (`none`). -/
def mapGet (m : CityMap) (k : String) : Option CityEntry :=
  (m.find? (fun p => p.1 == k)).map (fun p => p.2)

/-- One record of the primary city resource
(`{city, lat, lng, admin_name?, state?}`); a field that is absent in the
JSON is `JVal.null`.  The `city` field is a string or null: the program
calls `toLowerCase` on it (inside `normalize`), so any other value would
throw before an entry is stored. -/
structure CityRec where
  city : Option String
  lat : JVal
  lng : JVal
  admin_name : JVal
  state : JVal
deriving DecidableEq, Repr

/-- The entry stored for a primary record, app.js line 37:
`{ lat: +c.lat, lon: +c.lng, state: c.admin_name || c.state || null }`. -/
def entryOfRec (c : CityRec) : CityEntry :=
  ⟨jToNum c.lat, jToNum c.lng, jtruthyOr c.admin_name (jtruthyOr c.state .null)⟩

/-- The `arr.forEach` loop of app.js lines 36-38.  A list element that is
the JSON literal `null` (modelled as `none`) makes the callback throw when
it reads `c.city`, aborting the loop: the returned flag is `false` and the
map holds exactly the entries inserted before the throw. -/
def insertRecs (m : CityMap) : List (Option CityRec) → CityMap × Bool
  | [] => (m, true)
  | none :: _ => (m, false)
  | some c :: rest => insertRecs (mapSet m (normalize c.city) (entryOfRec c)) rest

/-- The fallback loop of app.js lines 43-45: for the `CITY_COORDS` table
(`city -> [lat, lon, st?]`, a missing `st` being `JVal.null`),
`CITY_INDEX.set(normalize(city), { lat: +lat, lon: +lon, state: st || null })`. -/
def fallbackFill (m : CityMap) (fb : List (String × JVal × JVal × JVal)) : CityMap :=
  fb.foldl
    (fun m e =>
      mapSet m (normalize (some e.1)) ⟨jToNum e.2.1, jToNum e.2.2.1, jtruthyOr e.2.2.2 .null⟩)
    m

/-- The globals `CITY_INDEX` / `CITY_INDEX_READY` after `loadCityIndex`. -/
structure CityState where
  index : CityMap
  ready : Bool
deriving DecidableEq, Repr

/-- app.js lines 30-48, `loadCityIndex`.  The input abstracts the primary
fetch: `Except.error` is a failed fetch, a non-ok status, or a body that
does not parse (`throw` before the loop); `Except.ok recs` is the record
sequence `Array.isArray(obj) ? obj : (obj.cities || [])` (so an empty or
wrapper-less body yields `[]`).  On the success path `CITY_INDEX_READY`
is assigned `true`; in the `catch` branch the fallback table is written
on top of whatever the index already holds and `CITY_INDEX_READY`
becomes `CITY_INDEX.size > 0`.  The globals start as an empty map and
`false`. -/
def loadCityIndex (primary : Except Unit (List (Option CityRec)))
    (fallback : List (String × JVal × JVal × JVal)) : CityState :=
  match primary with
  | .error _ =>
    let idx := fallbackFill [] fallback
    ⟨idx, decide (0 < idx.length)⟩
  | .ok recs =>
    match insertRecs [] recs with
    | (idx, true) => ⟨idx, true⟩
    | (idx, false) =>
      let idx2 := fallbackFill idx fallback
      ⟨idx2, decide (0 < idx2.length)⟩

/-- app.js lines 50-52: `resolveCity(city)` looks the normalized city up
in the index. -/
def resolveCity (idx : CityMap) (city : Option String) : Option CityEntry :=
  mapGet idx (normalize city)

/-- A logical row as produced by `loadExcelRows` (app.js lines 64-73):
each field is the sheet cell or `null`.  `City` and `Company` are the two
fields the program applies string methods to (`normalize`, `toLowerCase`),
so they are modelled as string-or-null; the remaining fields keep the
full value universe. -/
structure Row where
  City : Option String
  State : JVal
  Company : Option String
  Category : JVal
  Status : JVal
  Year : JVal
  PoC : JVal
  GP : JVal
deriving DecidableEq, Repr

/-- data.template.js: the `STATUS_COLORS` table. -/
def STATUS_COLORS : List (String × String) :=
  [("Completed", "#2e7d32"),
   ("Working on Documentation", "#1e88e5"),
   ("Inactive", "#757575"),
   ("Hold", "#ef6c00"),
   ("To be updated", "#8e24aa"),
   ("Certification Payment Pending", "#c62828"),
   ("Intro Session Pending", "#6d4c41"),
   ("Data Received", "#3949ab"),
   ("Waiting for CTO, on-hold", "#bdbdbd"),
   ("Unknown", "#9e9e9e")]

/-- JS object property read `STATUS_COLORS[k]`. -/
def objGet (l : List (String × String)) (k : String) : Option String :=
  (l.find? (fun p => p.1 == k)).map (fun p => p.2)

/-- app.js line 13: `STATUS_COLOR = s => (STATUS_COLORS && STATUS_COLORS[s]) || STATUS_COLORS['Unknown']`.
Property access stringifies the key; a missing or falsy hit falls back to
the `Unknown` colour. -/
def STATUS_COLOR (s : JVal) : String :=
  match objGet STATUS_COLORS (jstring s) with
  | some c => if c ≠ "" then c else (objGet STATUS_COLORS "Unknown").getD ""
  | none => (objGet STATUS_COLORS "Unknown").getD ""

/-- data.template.js: the fallback `CITY_COORDS` table, in object-literal
(= `Object.entries`) order. -/
def CITY_COORDS : List (String × JVal × JVal × JVal) :=
  [("Hyderabad", .num 17.3850, .num 78.4867, .str "Telangana"),
   ("Bengaluru", .num 12.9716, .num 77.5946, .str "Karnataka"),
   ("Chennai", .num 13.0827, .num 80.2707, .str "Tamil Nadu"),
   ("Mumbai", .num 19.0760, .num 72.8777, .str "Maharashtra"),
   ("Pune", .num 18.5204, .num 73.8567, .str "Maharashtra"),
   ("Ahmedabad", .num 23.0225, .num 72.5714, .str "Gujarat"),
   ("Surat", .num 21.1702, .num 72.8311, .str "Gujarat"),
   ("Jaipur", .num 26.9124, .num 75.7873, .str "Rajasthan"),
   ("Kolkata", .num 22.5726, .num 88.3639, .str "West Bengal"),
   ("Nashik", .num 20.0113, .num 73.7908, .str "Maharashtra"),
   ("Coimbatore", .num 11.0168, .num 76.9558, .str "Tamil Nadu")]

/-- The current values of the seven facet controls and the search box
(DOM `value` is always a string; `""` is the inactive `All` option). -/
structure Selection where
  status : String
  category : String
  city : String
  state : String
  poc : String
  gp : String
  year : String
  search : String
deriving DecidableEq, Repr

/-- The selection in which every control is `""`. -/
def emptySelection : Selection := ⟨"", "", "", "", "", "", "", ""⟩

/-- app.js line 136: `if (s && r.Status !== s) return false`. -/
def statusClause (sel : String) (r : Row) : Bool :=
  sel == "" || jvalEqStr r.Status sel

/-- app.js line 137: `if (c && r.Category !== c) return false`. -/
def categoryClause (sel : String) (r : Row) : Bool :=
  sel == "" || jvalEqStr r.Category sel

/-- app.js line 138: `if (city && r.City !== city) return false`
(a null city is strictly unequal to any selection string). -/
def cityClause (sel : String) (r : Row) : Bool :=
  sel == "" ||
    (match r.City with
     | some s => s == sel
     | none => false)

/-- app.js line 139: `if (st && (r.State || '') !== st) return false`. -/
def stateClause (sel : String) (r : Row) : Bool :=
  sel == "" || jvalEqStr (jtruthyOr r.State (.str "")) sel

/-- app.js line 140: `if (poc && (r.PoC || '') !== poc) return false`. -/
def pocClause (sel : String) (r : Row) : Bool :=
  sel == "" || jvalEqStr (jtruthyOr r.PoC (.str "")) sel

/-- app.js line 141: `if (gp && (r.GP || '') !== gp) return false`. -/
def gpClause (sel : String) (r : Row) : Bool :=
  sel == "" || jvalEqStr (jtruthyOr r.GP (.str "")) sel

/-- app.js line 142: `if (y && String(r.Year) !== y) return false`. -/
def yearClause (sel : String) (r : Row) : Bool :=
  sel == "" || jstring r.Year == sel

/-- app.js lines 133 and 143: `q = searchEl.value.trim().toLowerCase()` and
`if (q && !(r.Company || '').toLowerCase().includes(q)) return false`.
When `q` is falsy (the raw value trims to nothing) the clause is skipped
and the company string is never touched. -/
def searchClause (raw : String) (r : Row) : Bool :=
  let q := lowerStr (jsTrim raw)
  q == "" || jsIncludes q.data (lowerStr (r.Company.getD "")).data

/-- The filter callback of app.js lines 135-145: the conjunction of the
eight clauses, in source order. -/
def rowPred (sel : Selection) (r : Row) : Bool :=
  statusClause sel.status r &&
  categoryClause sel.category r &&
  cityClause sel.city r &&
  stateClause sel.state r &&
  pocClause sel.poc r &&
  gpClause sel.gp r &&
  yearClause sel.year r &&
  searchClause sel.search r

/-- app.js lines 125-146, `applyFilters`: keep the rows satisfying every
active criterion, in order. -/
def applyFilters (sel : Selection) (rows : List Row) : List Row :=
  rows.filter (fun r => rowPred sel r)

/-- The seven `colVals` sets of `populateFilters` (app.js lines 78-81);
a JS `Set` is an insertion-ordered duplicate-free list. -/
structure Facets where
  Status : List JVal
  Category : List JVal
  City : List String
  State : List JVal
  PoC : List JVal
  GP : List JVal
  Year : List JVal
deriving DecidableEq, Repr

/-- JS `Set.add`: append the value unless it is already present. -/
def addVal {α : Type} [DecidableEq α] (l : List α) (v : α) : List α :=
  if v ∈ l then l else l ++ [v]

/-- One conditional `Set.add` step: add `g a` to the set when the guard
yields a value. -/
def facetAdd {α β : Type} [DecidableEq β] (g : α → Option β) (l : List β) (a : α) : List β :=
  match g a with
  | some v => addVal l v
  | none => l

/-- Guard of `if (r.Status) colVals.Status.add(r.Status)`. -/
def gStatus (r : Row) : Option JVal := if jtruthy r.Status then some r.Status else none

/-- Guard of `if (r.Category) colVals.Category.add(r.Category)`. -/
def gCategory (r : Row) : Option JVal := if jtruthy r.Category then some r.Category else none

/-- Guard of `if (r.City) colVals.City.add(r.City)`: a string city is
truthy exactly when non-empty. -/
def gCity (r : Row) : Option String :=
  match r.City with
  | some s => if s ≠ "" then some s else none
  | none => none

/-- Guard of `if (r.State) colVals.State.add(r.State)`. -/
def gState (r : Row) : Option JVal := if jtruthy r.State then some r.State else none

/-- Guard of `if (r.PoC) colVals.PoC.add(r.PoC)`. -/
def gPoC (r : Row) : Option JVal := if jtruthy r.PoC then some r.PoC else none

/-- Guard of `if (r.GP) colVals.GP.add(r.GP)`. -/
def gGP (r : Row) : Option JVal := if jtruthy r.GP then some r.GP else none

/-- Guard of app.js line 89:
`if (r.Year !== null && r.Year !== undefined && r.Year !== '') colVals.Year.add(r.Year)`
(`undefined` cannot occur: the loader maps absent cells to `null`). -/
def gYear (r : Row) : Option JVal :=
  if r.Year ≠ .null ∧ r.Year ≠ .str "" then some r.Year else none

/-- The body of the `rows.forEach` of app.js lines 82-90: each facet set
takes its own conditional add. -/
def pfStep (acc : Facets) (r : Row) : Facets :=
  { Status := facetAdd gStatus acc.Status r,
    Category := facetAdd gCategory acc.Category r,
    City := facetAdd gCity acc.City r,
    State := facetAdd gState acc.State r,
    PoC := facetAdd gPoC acc.PoC r,
    GP := facetAdd gGP acc.GP r,
    Year := facetAdd gYear acc.Year r }

/-- app.js lines 77-107, `populateFilters`: the facet-set construction
(the `fillSelect` calls only copy the finished sets into the DOM). -/
def populateFilters (rows : List Row) : Facets :=
  rows.foldl pfStep ⟨[], [], [], [], [], [], []⟩

/-- A circle marker as built on app.js lines 156-159: position, stroke
and fill colour, and the `(row, coord)` pair that `companyPopup` renders
into the popup payload. -/
structure Marker where
  lat : Option Rat
  lon : Option Rat
  color : String
  fillColor : String
  popupRow : Row
  popupCoord : CityEntry
deriving DecidableEq, Repr

/-- Build the marker for a resolved row. -/
def mkMarker (coord : CityEntry) (r : Row) : Marker :=
  ⟨coord.lat, coord.lon, STATUS_COLOR r.Status, STATUS_COLOR r.Status, r, coord⟩

/-- The marker layer and the two counters of `renderMarkers`. -/
structure RenderState where
  markers : List Marker
  plotted : Nat
  missing : Nat
deriving DecidableEq, Repr

/-- The `filtered.forEach` loop of app.js lines 153-162: an unresolved
city increments `missing` and skips the row; a resolved one appends a
marker and increments `plotted`. -/
def renderLoop (idx : CityMap) : List Row → RenderState → RenderState
  | [], st => st
  | r :: rest, st =>
    match resolveCity idx r.City with
    | none => renderLoop idx rest { st with missing := st.missing + 1 }
    | some coord =>
      renderLoop idx rest
        { st with markers := st.markers ++ [mkMarker coord r], plotted := st.plotted + 1 }

/-- app.js lines 148-165, `renderMarkers`: clear the layer, filter the
rows with the current selection, then run the plotting loop with both
counters at zero. -/
def renderMarkers (idx : CityMap) (sel : Selection) (rows : List Row) : RenderState :=
  renderLoop idx (applyFilters sel rows) ⟨[], 0, 0⟩

/-- Selection `B` has exactly one more active (non-empty) criterion than
`A`: one control moves from `""` to a non-empty value and every other
control is unchanged. -/
def oneMoreActive (A B : Selection) : Prop :=
  (A.status = "" ∧ B.status ≠ "" ∧ B = { A with status := B.status }) ∨
  (A.category = "" ∧ B.category ≠ "" ∧ B = { A with category := B.category }) ∨
  (A.city = "" ∧ B.city ≠ "" ∧ B = { A with city := B.city }) ∨
  (A.state = "" ∧ B.state ≠ "" ∧ B = { A with state := B.state }) ∨
  (A.poc = "" ∧ B.poc ≠ "" ∧ B = { A with poc := B.poc }) ∨
  (A.gp = "" ∧ B.gp ≠ "" ∧ B = { A with gp := B.gp }) ∨
  (A.year = "" ∧ B.year ≠ "" ∧ B = { A with year := B.year }) ∨
  (A.search = "" ∧ B.search ≠ "" ∧ B = { A with search := B.search })

/-- The character-list core of `normalize`: lower-case, then drop
whitespace. -/
def normData (l : List Char) : List Char :=
  (l.map lowerChar).filter (fun c => !isWs c)

/-- Sample row: a resolvable city and the status `Completed`. -/
def wRowPune : Row :=
  ⟨some "Pune", .null, some "Pune Traders", .null, .str "Completed", .null, .null, .null⟩

/-- Sample row: a city absent from every index and the status `Hold`. -/
def wRowUnknown : Row :=
  ⟨some "Unknownville", .null, some "Surat Mills", .null, .str "Hold", .null, .null, .null⟩

/-- Sample dataset of the two rows above. -/
def wRows : List Row := [wRowPune, wRowUnknown]

/-- The empty selection with the status control set to `Hold`. -/
def holdSelection : Selection := { emptySelection with status := "Hold" }

/-- Sample primary city record for a city that the fallback table does
not know. -/
def wPrimaryRec : CityRec := ⟨some "Gotham", .num 999, .num 999, .null, .null⟩

/-- Sample primary city record whose city name normalizes to the empty
string. -/
def wBlankCityRec : CityRec := ⟨some " ", .num 1, .num 2, .null, .null⟩

/-- Sample row with a null company (and every other field null). -/
def wNullCompanyRow : Row := ⟨none, .null, none, .null, .null, .null, .null, .null⟩

/-- The index obtained from the shipped fallback table when the primary
fetch fails. -/
def shippedFallbackIndex : CityMap := (loadCityIndex (Except.error ()) CITY_COORDS).index

/- ------------------------------------------------------------------ -/
/- Helper lemmas about the character table.                            -/
/- ------------------------------------------------------------------ -/

theorem asciiPairs_snd_find?_none :
    ∀ q ∈ asciiPairs, asciiPairs.find? (fun x => x.1 == q.2) = none := by decide

theorem asciiPairs_not_ws :
    ∀ q ∈ asciiPairs, isWs q.1 = false ∧ isWs q.2 = false := by decide

theorem lowerChar_idem (c : Char) : lowerChar (lowerChar c) = lowerChar c := by
  cases h : asciiPairs.find? (fun p => p.1 == c) with
  | none =>
    have h1 : lowerChar c = c := by unfold lowerChar; rw [h]; rfl
    simp only [h1]
  | some p =>
    have h1 : lowerChar c = p.2 := by unfold lowerChar; rw [h]; rfl
    have h2 : lowerChar p.2 = p.2 := by
      unfold lowerChar
      rw [asciiPairs_snd_find?_none p (List.mem_of_find?_eq_some h)]
      rfl
    rw [h1, h2]

theorem isWs_lowerChar (c : Char) : isWs (lowerChar c) = isWs c := by
  cases h : asciiPairs.find? (fun p => p.1 == c) with
  | none =>
    have h1 : lowerChar c = c := by unfold lowerChar; rw [h]; rfl
    rw [h1]
  | some p =>
    have h1 : lowerChar c = p.2 := by unfold lowerChar; rw [h]; rfl
    have hmem := List.mem_of_find?_eq_some h
    have hpc : p.1 = c := by
      have := List.find?_some h
      simpa using this
    have hws := asciiPairs_not_ws p hmem
    rw [h1, hws.2, ← hpc, hws.1]

theorem filter_map_lowerChar (l : List Char) :
    (l.map lowerChar).filter (fun c => !isWs c) =
      (l.filter (fun c => !isWs c)).map lowerChar := by
  induction l with
  | nil => rfl
  | cons a t ih =>
    simp only [List.map_cons, List.filter_cons, isWs_lowerChar]
    cases hw : isWs a
    · simp [hw, ih]
    · simp [hw, ih]

theorem map_lowerChar_idem (l : List Char) :
    (l.map lowerChar).map lowerChar = l.map lowerChar := by
  induction l with
  | nil => rfl
  | cons a t ih => simp [lowerChar_idem, ih]

theorem filter_ws_idem (l : List Char) :
    (l.filter (fun c => !isWs c)).filter (fun c => !isWs c) =
      l.filter (fun c => !isWs c) := by
  induction l with
  | nil => rfl
  | cons a t ih =>
    cases hw : isWs a
    · simp [List.filter_cons, hw, ih]
    · simp [List.filter_cons, hw, ih]

theorem normData_idem (l : List Char) : normData (normData l) = normData l := by
  unfold normData
  rw [filter_map_lowerChar (((l.map lowerChar).filter (fun c => !isWs c)))]
  rw [filter_ws_idem, ← filter_map_lowerChar, map_lowerChar_idem]

theorem stripWs_lowerStr (s : String) :
    stripWs (lowerStr s) = lowerStr (stripWs s) :=
  congrArg String.mk (filter_map_lowerChar s.data)

/-- C9: `normalize` is a total pure function on city cells (strings plus
the null/undefined sentinel, modelled as `Option String`), it is
idempotent, and two strings that agree after lower-casing, or agree
after whitespace removal, normalize to the same canonical key. -/
theorem normalize_idempotent_insensitive :
    (∀ v : Option String, normalize (some (normalize v)) = normalize v) ∧
    (∀ a b : String, lowerStr a = lowerStr b →
      normalize (some a) = normalize (some b)) ∧
    (∀ a b : String, stripWs a = stripWs b →
      normalize (some a) = normalize (some b)) := by
  refine ⟨fun v => ?_, fun a b h => ?_, fun a b h => ?_⟩
  · show String.mk (normData (normData (v.getD "").data)) =
      String.mk (normData (v.getD "").data)
    exact congrArg String.mk (normData_idem (v.getD "").data)
  · show stripWs (lowerStr a) = stripWs (lowerStr b)
    rw [h]
  · show stripWs (lowerStr a) = stripWs (lowerStr b)
    rw [stripWs_lowerStr, stripWs_lowerStr, h]

/-- Witness for C9 at concrete inputs: idempotence on a padded
mixed-case name, and case/whitespace insensitivity on `Mumbai`. -/
theorem normalize_idempotent_insensitive_witness :
    normalize (some (normalize (some "  Mum BAI "))) = normalize (some "  Mum BAI ") ∧
    normalize (some "Mumbai") = normalize (some "MUMBAI") ∧
    normalize (some "Mumbai") = normalize (some "Mum bai") :=
  ⟨normalize_idempotent_insensitive.1 (some "  Mum BAI "),
   normalize_idempotent_insensitive.2.1 "Mumbai" "MUMBAI" (by decide),
   normalize_idempotent_insensitive.2.2 "Mumbai" "Mum bai" (by decide)⟩

/-- C6: with every control at `""` and an empty search box, the filter
keeps every row, in order. -/
theorem applyFilters_empty_identity (rows : List Row) :
    applyFilters emptySelection rows = rows := by
  have h : ∀ r ∈ rows, rowPred emptySelection r = true := fun r _ => rfl
  exact List.filter_eq_self.mpr h

theorem statusClause_empty (r : Row) : statusClause "" r = true := rfl

theorem categoryClause_empty (r : Row) : categoryClause "" r = true := rfl

theorem cityClause_empty (r : Row) : cityClause "" r = true := rfl

theorem stateClause_empty (r : Row) : stateClause "" r = true := rfl

theorem pocClause_empty (r : Row) : pocClause "" r = true := rfl

theorem gpClause_empty (r : Row) : gpClause "" r = true := rfl

theorem yearClause_empty (r : Row) : yearClause "" r = true := rfl

theorem searchClause_empty (r : Row) : searchClause "" r = true := rfl

/-- C1: activating one additional criterion can only remove rows: the
result under the more constrained selection is a sub-sequence of the
result under the original one. -/
theorem applyFilters_monotone (rows : List Row) (A B : Selection)
    (h : oneMoreActive A B) :
    List.Sublist (applyFilters B rows) (applyFilters A rows) := by
  have himp : ∀ r : Row, rowPred B r = true → rowPred A r = true := by
    intro r hr
    rcases h with ⟨h1, h2, h3⟩ | ⟨h1, h2, h3⟩ | ⟨h1, h2, h3⟩ | ⟨h1, h2, h3⟩ |
      ⟨h1, h2, h3⟩ | ⟨h1, h2, h3⟩ | ⟨h1, h2, h3⟩ | ⟨h1, h2, h3⟩ <;>
      (rw [h3] at hr
       simp only [rowPred, Bool.and_eq_true] at hr ⊢
       obtain ⟨⟨⟨⟨⟨⟨⟨a1, a2⟩, a3⟩, a4⟩, a5⟩, a6⟩, a7⟩, a8⟩ := hr)
    · exact ⟨⟨⟨⟨⟨⟨⟨by rw [h1]; exact statusClause_empty r, a2⟩, a3⟩, a4⟩, a5⟩, a6⟩, a7⟩, a8⟩
    · exact ⟨⟨⟨⟨⟨⟨⟨a1, by rw [h1]; exact categoryClause_empty r⟩, a3⟩, a4⟩, a5⟩, a6⟩, a7⟩, a8⟩
    · exact ⟨⟨⟨⟨⟨⟨⟨a1, a2⟩, by rw [h1]; exact cityClause_empty r⟩, a4⟩, a5⟩, a6⟩, a7⟩, a8⟩
    · exact ⟨⟨⟨⟨⟨⟨⟨a1, a2⟩, a3⟩, by rw [h1]; exact stateClause_empty r⟩, a5⟩, a6⟩, a7⟩, a8⟩
    · exact ⟨⟨⟨⟨⟨⟨⟨a1, a2⟩, a3⟩, a4⟩, by rw [h1]; exact pocClause_empty r⟩, a6⟩, a7⟩, a8⟩
    · exact ⟨⟨⟨⟨⟨⟨⟨a1, a2⟩, a3⟩, a4⟩, a5⟩, by rw [h1]; exact gpClause_empty r⟩, a7⟩, a8⟩
    · exact ⟨⟨⟨⟨⟨⟨⟨a1, a2⟩, a3⟩, a4⟩, a5⟩, a6⟩, by rw [h1]; exact yearClause_empty r⟩, a8⟩
    · exact ⟨⟨⟨⟨⟨⟨⟨a1, a2⟩, a3⟩, a4⟩, a5⟩, a6⟩, a7⟩, by rw [h1]; exact searchClause_empty r⟩
  exact List.monotone_filter_right rows himp

/-- Witness for C1: constraining the empty selection by the status
`Hold` on the two sample rows. -/
theorem applyFilters_monotone_witness :
    List.Sublist (applyFilters holdSelection wRows)
      (applyFilters emptySelection wRows) :=
  applyFilters_monotone wRows emptySelection holdSelection
    (Or.inl ⟨rfl, by decide, rfl⟩)

theorem insertRecs_snd (recs : List (Option CityRec)) :
    ∀ m : CityMap, (insertRecs m recs).2 = recs.all (fun c => c.isSome) := by
  induction recs with
  | nil => intro m; rfl
  | cons c rest ih =>
    intro m
    cases c with
    | none => simp [insertRecs]
    | some c => simp [insertRecs, ih]

/-- Counterexample to C2 as stated: a primary resource that parses to an
empty record sequence still sets the ready flag, leaving `ready = true`
with an empty index. -/
theorem loadCityIndex_empty_primary_cex :
    (loadCityIndex (Except.ok ([] : List (Option CityRec))) CITY_COORDS).ready = true ∧
    (loadCityIndex (Except.ok ([] : List (Option CityRec))) CITY_COORDS).index = [] :=
  ⟨rfl, rfl⟩

/-- C2 as amended: on the fallback (`catch`) path — a failed primary
fetch/parse, or a throw while processing the records — the ready flag is
set to whether the resulting index is non-empty; on the path where every
primary record is processed, the flag is set to `true` unconditionally,
even when the record sequence was empty. -/
theorem loadCityIndex_ready_spec :
    (∀ (recs : List (Option CityRec)) (fb : List (String × JVal × JVal × JVal)),
      recs.all (fun c => c.isSome) = true →
        (loadCityIndex (Except.ok recs) fb).ready = true) ∧
    (∀ (recs : List (Option CityRec)) (fb : List (String × JVal × JVal × JVal)),
      recs.all (fun c => c.isSome) = false →
        (loadCityIndex (Except.ok recs) fb).ready =
          decide (0 < (loadCityIndex (Except.ok recs) fb).index.length)) ∧
    (∀ fb : List (String × JVal × JVal × JVal),
      (loadCityIndex (Except.error ()) fb).ready =
        decide (0 < (loadCityIndex (Except.error ()) fb).index.length)) := by
  refine ⟨fun recs fb hall => ?_, fun recs fb hall => ?_, fun fb => rfl⟩
  · have h2 : (insertRecs [] recs).2 = true := by rw [insertRecs_snd]; exact hall
    cases hp : insertRecs [] recs with
    | mk idx b =>
      rw [hp] at h2
      simp only at h2
      subst h2
      simp [loadCityIndex, hp]
  · have h2 : (insertRecs [] recs).2 = false := by rw [insertRecs_snd]; exact hall
    cases hp : insertRecs [] recs with
    | mk idx b =>
      rw [hp] at h2
      simp only at h2
      subst h2
      simp [loadCityIndex, hp]

/-- Witness for C2 as amended: the empty primary record sequence
completes, so the flag is set. -/
theorem loadCityIndex_ready_spec_witness :
    (loadCityIndex (Except.ok ([] : List (Option CityRec))) CITY_COORDS).ready = true :=
  loadCityIndex_ready_spec.1 [] CITY_COORDS rfl

/-- Counterexample to C3 as stated: a primary resource whose second
record is the JSON literal `null` makes the processing loop throw after
the first entry is stored; the catch branch then writes the fallback
table on top, so the final index holds the primary key `gotham` (absent
from the fallback table) next to the fallback key `hyderabad` (absent
from the primary records) — entries of both sources mixed. -/
theorem loadCityIndex_mixed_sources_cex :
    ¬ ((∀ p ∈ (loadCityIndex (Except.ok [some wPrimaryRec, none]) CITY_COORDS).index,
          p.1 = "gotham") ∨
       (∀ p ∈ (loadCityIndex (Except.ok [some wPrimaryRec, none]) CITY_COORDS).index,
          p.1 ∈ CITY_COORDS.map (fun e => normalize (some e.1)))) := by
  decide

/-- C3 as amended: the index is single-source on the two non-throwing
paths.  When every primary record processes without a throw the result
does not depend on the fallback table at all, and when the primary
source fails before the loop the index is exactly the fallback fill of
an empty map.  (When a throw interrupts the loop partway, the entries
already inserted from the primary remain under the fallback entries:
mixing is reachable, as the counterexample shows.) -/
theorem loadCityIndex_source_exclusive :
    (∀ (recs : List (Option CityRec)) (fb fb' : List (String × JVal × JVal × JVal)),
      recs.all (fun c => c.isSome) = true →
        loadCityIndex (Except.ok recs) fb = loadCityIndex (Except.ok recs) fb') ∧
    (∀ fb : List (String × JVal × JVal × JVal),
      (loadCityIndex (Except.error ()) fb).index = fallbackFill [] fb) := by
  refine ⟨fun recs fb fb' hall => ?_, fun fb => rfl⟩
  have h2 : (insertRecs [] recs).2 = true := by rw [insertRecs_snd]; exact hall
  cases hp : insertRecs [] recs with
  | mk idx b =>
    rw [hp] at h2
    simp only at h2
    subst h2
    simp [loadCityIndex, hp]

/-- Witness for C3 as amended: one well-formed primary record gives the
same state whether the fallback table is the shipped one or empty. -/
theorem loadCityIndex_source_exclusive_witness :
    loadCityIndex (Except.ok [some wPrimaryRec]) CITY_COORDS =
      loadCityIndex (Except.ok [some wPrimaryRec]) [] :=
  loadCityIndex_source_exclusive.1 [some wPrimaryRec] CITY_COORDS [] rfl

/-- Counterexample to C4 as stated: a primary record whose city is `" "`
normalizes to the empty-string key and is stored under it; a row whose
city field is null then resolves to that entry instead of the absence
signal. -/
theorem resolveCity_null_collision_cex :
    resolveCity (loadCityIndex (Except.ok [some wBlankCityRec]) CITY_COORDS).index none =
      some ⟨some 1, some 2, JVal.null⟩ := by
  decide

/-- C4 as amended: a null city is looked up under the key
`normalize(null) = ""`, so it is unresolved exactly in the indexes
without an empty-string key — in particular in every index whose source
city names all normalize to non-empty keys, such as the shipped fallback
table.  A source record normalizing to the empty key defeats this, as
the counterexample shows. -/
theorem resolveCity_null_spec :
    normalize none = "" ∧
    ∀ idx : CityMap, (∀ p ∈ idx, p.1 ≠ "") → resolveCity idx none = none := by
  refine ⟨rfl, fun idx h => ?_⟩
  unfold resolveCity mapGet
  have hfind : idx.find? (fun p => p.1 == normalize none) = none := by
    apply List.find?_eq_none.mpr
    intro p hp
    simpa using h p hp
  rw [hfind]
  rfl

/-- Witness for C4 as amended: in the shipped fallback index a null city
is unresolved. -/
theorem resolveCity_null_spec_witness :
    resolveCity shippedFallbackIndex none = none :=
  resolveCity_null_spec.2 shippedFallbackIndex (by decide)

theorem renderLoop_spec (idx : CityMap) (l : List Row) (st : RenderState) :
    renderLoop idx l st =
      ⟨st.markers ++
         l.filterMap (fun r => (resolveCity idx r.City).map (fun c => mkMarker c r)),
       st.plotted + l.countP (fun r => (resolveCity idx r.City).isSome),
       st.missing + l.countP (fun r => (resolveCity idx r.City).isNone)⟩ := by
  induction l generalizing st with
  | nil => simp [renderLoop]
  | cons r rest ih =>
    cases h : resolveCity idx r.City with
    | none =>
      simp only [renderLoop, h, ih, List.filterMap_cons, List.countP_cons, h,
        Option.isSome_none, Option.isNone_none, RenderState.mk.injEq]
      refine ⟨rfl, by simp, by simp; omega⟩
    | some c =>
      simp only [renderLoop, h, ih, List.filterMap_cons, List.countP_cons, h,
        Option.isSome_some, Option.isNone_some, Option.map_some, RenderState.mk.injEq]
      refine ⟨by simp, by simp; omega, by simp⟩

/-- C5: in a render pass every filtered row whose city is unresolved
contributes no marker and adds exactly one to the missing counter, and
every filtered row whose city resolves contributes exactly its marker
and adds one to the plotted counter. -/
theorem renderMarkers_row_accounting (idx : CityMap) (sel : Selection) (rows : List Row) :
    (renderMarkers idx sel rows).missing =
        (applyFilters sel rows).countP (fun r => (resolveCity idx r.City).isNone) ∧
    (renderMarkers idx sel rows).plotted =
        (applyFilters sel rows).countP (fun r => (resolveCity idx r.City).isSome) ∧
    (renderMarkers idx sel rows).markers =
        (applyFilters sel rows).filterMap
          (fun r => (resolveCity idx r.City).map (fun c => mkMarker c r)) := by
  unfold renderMarkers
  rw [renderLoop_spec]
  simp

/-- C10: after a render pass the plotted and missing counters add up to
the number of filtered rows: each filtered row is counted exactly once. -/
theorem renderMarkers_count_conservation (idx : CityMap) (sel : Selection) (rows : List Row) :
    (renderMarkers idx sel rows).plotted + (renderMarkers idx sel rows).missing =
      (applyFilters sel rows).length := by
  unfold renderMarkers
  rw [renderLoop_spec]
  simp only [Nat.zero_add]
  rw [List.length_eq_countP_add_countP (fun r => (resolveCity idx r.City).isSome)]
  congr 1
  apply List.countP_congr
  intro r _
  cases resolveCity idx r.City <;> simp

theorem lowerStr_eq_empty_iff (s : String) : lowerStr s = "" ↔ s = "" := by
  constructor
  · intro h
    have hd : s.data.map lowerChar = [] := congrArg String.data h
    exact String.ext (List.map_eq_nil_iff.mp hd)
  · intro h
    rw [h]
    rfl

/-- Counterexample to C7 as stated: the raw search term `"  "` is a
non-empty string, yet after the trim of line 133 the criterion is
inactive and matches even a row whose company field is null. -/
theorem searchClause_null_company_cex :
    ("  " : String) ≠ "" ∧ searchClause "  " wNullCompanyRow = true := by
  decide

/-- C7 as amended: the free-text criterion first trims the raw term.  A
term trimming to the empty string deactivates the criterion (every row
matches, even with a null company).  For a term whose trimmed form is
non-empty, the criterion matches exactly the rows whose company name
contains the trimmed term case-insensitively — so a null company never
matches — and the criterion reads no field but the company. -/
theorem searchClause_spec (raw : String) (r : Row) :
    (jsTrim raw = "" → searchClause raw r = true) ∧
    (jsTrim raw ≠ "" →
      (searchClause raw r = true ↔
        ∃ c, r.Company = some c ∧ ciSubstr (jsTrim raw) c = true)) ∧
    (∀ r2 : Row, r.Company = r2.Company → searchClause raw r = searchClause raw r2) := by
  refine ⟨fun h => ?_, fun h => ?_, fun r2 h => ?_⟩
  · show (lowerStr (jsTrim raw) == "" ||
      jsIncludes (lowerStr (jsTrim raw)).data (lowerStr (r.Company.getD "")).data) = true
    rw [h]
    rfl
  · have hq : lowerStr (jsTrim raw) ≠ "" :=
      fun he => h ((lowerStr_eq_empty_iff (jsTrim raw)).mp he)
    have hqb : (lowerStr (jsTrim raw) == "") = false := by
      simp [hq]
    show (lowerStr (jsTrim raw) == "" ||
        jsIncludes (lowerStr (jsTrim raw)).data (lowerStr (r.Company.getD "")).data) = true ↔ _
    rw [hqb, Bool.false_or]
    cases hc : r.Company with
    | none =>
      have hdata : (lowerStr (jsTrim raw)).data ≠ [] := fun hd => hq (String.ext hd)
      constructor
      · intro habs
        have hemp : (lowerStr (jsTrim raw)).data.isEmpty = true := habs
        exact absurd (List.isEmpty_iff.mp hemp) hdata
      · rintro ⟨c, hcc, h2⟩
        exact Option.noConfusion hcc
    | some c =>
      constructor
      · intro htrue
        exact ⟨c, rfl, htrue⟩
      · rintro ⟨c2, hc2, hsub⟩
        cases hc2
        exact hsub
  · show (lowerStr (jsTrim raw) == "" ||
        jsIncludes (lowerStr (jsTrim raw)).data (lowerStr (r.Company.getD "")).data) =
      (lowerStr (jsTrim raw) == "" ||
        jsIncludes (lowerStr (jsTrim raw)).data (lowerStr (r2.Company.getD "")).data)
    rw [h]

/-- Witness for C7 as amended, at the search term `PUN` on the sample
Pune row. -/
theorem searchClause_spec_witness :
    searchClause "PUN" wRowPune = true ↔
      ∃ c, wRowPune.Company = some c ∧ ciSubstr (jsTrim "PUN") c = true :=
  (searchClause_spec "PUN" wRowPune).2.1 (by decide)

theorem populateFilters_proj_status (rows : List Row) :
    ∀ acc : Facets, (rows.foldl pfStep acc).Status =
      rows.foldl (fun l r => facetAdd gStatus l r) acc.Status := by
  induction rows with
  | nil => intro acc; rfl
  | cons r rest ih => intro acc; exact ih (pfStep acc r)

theorem populateFilters_proj_category (rows : List Row) :
    ∀ acc : Facets, (rows.foldl pfStep acc).Category =
      rows.foldl (fun l r => facetAdd gCategory l r) acc.Category := by
  induction rows with
  | nil => intro acc; rfl
  | cons r rest ih => intro acc; exact ih (pfStep acc r)

theorem populateFilters_proj_city (rows : List Row) :
    ∀ acc : Facets, (rows.foldl pfStep acc).City =
      rows.foldl (fun l r => facetAdd gCity l r) acc.City := by
  induction rows with
  | nil => intro acc; rfl
  | cons r rest ih => intro acc; exact ih (pfStep acc r)

theorem populateFilters_proj_state (rows : List Row) :
    ∀ acc : Facets, (rows.foldl pfStep acc).State =
      rows.foldl (fun l r => facetAdd gState l r) acc.State := by
  induction rows with
  | nil => intro acc; rfl
  | cons r rest ih => intro acc; exact ih (pfStep acc r)

theorem populateFilters_proj_poc (rows : List Row) :
    ∀ acc : Facets, (rows.foldl pfStep acc).PoC =
      rows.foldl (fun l r => facetAdd gPoC l r) acc.PoC := by
  induction rows with
  | nil => intro acc; rfl
  | cons r rest ih => intro acc; exact ih (pfStep acc r)

theorem populateFilters_proj_gp (rows : List Row) :
    ∀ acc : Facets, (rows.foldl pfStep acc).GP =
      rows.foldl (fun l r => facetAdd gGP l r) acc.GP := by
  induction rows with
  | nil => intro acc; rfl
  | cons r rest ih => intro acc; exact ih (pfStep acc r)

theorem populateFilters_proj_year (rows : List Row) :
    ∀ acc : Facets, (rows.foldl pfStep acc).Year =
      rows.foldl (fun l r => facetAdd gYear l r) acc.Year := by
  induction rows with
  | nil => intro acc; rfl
  | cons r rest ih => intro acc; exact ih (pfStep acc r)

theorem mem_addVal {β : Type} [DecidableEq β] {l : List β} {w v : β}
    (h : v ∈ addVal l w) : v ∈ l ∨ v = w := by
  unfold addVal at h
  by_cases hw : w ∈ l
  · rw [if_pos hw] at h
    exact Or.inl h
  · rw [if_neg hw] at h
    rcases List.mem_append.mp h with h1 | h1
    · exact Or.inl h1
    · exact Or.inr (List.mem_singleton.mp h1)

theorem addVal_nodup {β : Type} [DecidableEq β] {l : List β} (w : β)
    (h : l.Nodup) : (addVal l w).Nodup := by
  unfold addVal
  by_cases hw : w ∈ l
  · rw [if_pos hw]
    exact h
  · rw [if_neg hw]
    rw [List.nodup_append]
    refine ⟨h, List.nodup_singleton w, ?_⟩
    intro a hal haw
    rw [List.mem_singleton] at haw
    exact hw (haw ▸ hal)

theorem foldl_facetAdd_mem {α β : Type} [DecidableEq β] (g : α → Option β) :
    ∀ (l : List α) (acc : List β) (v : β),
      v ∈ l.foldl (fun s a => facetAdd g s a) acc →
        v ∈ acc ∨ ∃ a ∈ l, g a = some v := by
  intro l
  induction l with
  | nil => intro acc v h; exact Or.inl h
  | cons a rest ih =>
    intro acc v h
    rcases ih (facetAdd g acc a) v h with h1 | ⟨a2, ha2, hg⟩
    · cases hga : g a with
      | none =>
        rw [facetAdd, hga] at h1
        exact Or.inl h1
      | some w =>
        rw [facetAdd, hga] at h1
        rcases mem_addVal h1 with h2 | h2
        · exact Or.inl h2
        · exact Or.inr ⟨a, List.mem_cons_self a rest, h2 ▸ hga⟩
    · exact Or.inr ⟨a2, List.mem_cons_of_mem a ha2, hg⟩

theorem foldl_facetAdd_nodup {α β : Type} [DecidableEq β] (g : α → Option β) :
    ∀ (l : List α) (acc : List β), acc.Nodup →
      (l.foldl (fun s a => facetAdd g s a) acc).Nodup := by
  intro l
  induction l with
  | nil => intro acc h; exact h
  | cons a rest ih =>
    intro acc h
    refine ih (facetAdd g acc a) ?_
    cases hga : g a with
    | none => rw [facetAdd, hga]; exact h
    | some w => rw [facetAdd, hga]; exact addVal_nodup w h

theorem truthy_guard_some {x : JVal} {v : JVal}
    (h : (if jtruthy x then some x else none) = some v) :
    jtruthy v = true ∧ x = v := by
  by_cases ht : jtruthy x = true
  · rw [if_pos ht] at h
    cases h
    exact ⟨ht, rfl⟩
  · rw [if_neg ht] at h
    exact Option.noConfusion h

theorem jtruthy_ne_sentinels {v : JVal} (h : jtruthy v = true) :
    v ≠ JVal.null ∧ v ≠ JVal.str "" := by
  refine ⟨fun he => ?_, fun he => ?_⟩
  · rw [he] at h
    exact Bool.noConfusion h
  · rw [he] at h
    simp [jtruthy] at h

theorem year_guard_some {x v : JVal}
    (h : (if x ≠ JVal.null ∧ x ≠ JVal.str "" then some x else none) = some v) :
    (v ≠ JVal.null ∧ v ≠ JVal.str "") ∧ x = v := by
  by_cases hc : x ≠ JVal.null ∧ x ≠ JVal.str ""
  · rw [if_pos hc] at h
    cases h
    exact ⟨hc, rfl⟩
  · rw [if_neg hc] at h
    exact Option.noConfusion h

theorem truthy_fold_spec (f : Row → JVal) (rows : List Row) :
    ∀ v ∈ rows.foldl
        (fun l r => facetAdd (fun r => if jtruthy (f r) then some (f r) else none) l r) [],
      v ≠ JVal.null ∧ v ≠ JVal.str "" ∧ ∃ r ∈ rows, f r = v := by
  intro v hv
  rcases foldl_facetAdd_mem _ rows [] v hv with h | ⟨r, hr, hg⟩
  · exact absurd h (List.not_mem_nil v)
  · obtain ⟨ht, he⟩ := truthy_guard_some hg
    obtain ⟨h1, h2⟩ := jtruthy_ne_sentinels ht
    exact ⟨h1, h2, r, hr, he⟩

theorem city_fold_spec (rows : List Row) :
    ∀ v ∈ rows.foldl (fun l r => facetAdd gCity l r) [],
      v ≠ "" ∧ ∃ r ∈ rows, r.City = some v := by
  intro v hv
  rcases foldl_facetAdd_mem gCity rows [] v hv with h | ⟨r, hr, hg⟩
  · exact absurd h (List.not_mem_nil v)
  · unfold gCity at hg
    cases hc : r.City with
    | none => rw [hc] at hg; exact Option.noConfusion hg
    | some s =>
      rw [hc] at hg
      change (if s ≠ "" then some s else none) = some v at hg
      by_cases hs : s ≠ ""
      · rw [if_pos hs] at hg
        cases hg
        exact ⟨hs, r, hr, hc⟩
      · rw [if_neg hs] at hg
        exact Option.noConfusion hg

theorem year_fold_spec (rows : List Row) :
    ∀ v ∈ rows.foldl (fun l r => facetAdd gYear l r) [],
      v ≠ JVal.null ∧ v ≠ JVal.str "" ∧ ∃ r ∈ rows, r.Year = v := by
  intro v hv
  rcases foldl_facetAdd_mem gYear rows [] v hv with h | ⟨r, hr, hg⟩
  · exact absurd h (List.not_mem_nil v)
  · obtain ⟨⟨h1, h2⟩, he⟩ := year_guard_some hg
    exact ⟨h1, h2, r, hr, he⟩

/-- C8: every facet set the builder derives is duplicate-free, never
contains the null sentinel or the empty string, and each of its values
is the corresponding field of some loaded row. -/
theorem populateFilters_facets_clean (rows : List Row) :
    ((∀ v ∈ (populateFilters rows).Status,
        v ≠ JVal.null ∧ v ≠ JVal.str "" ∧ ∃ r ∈ rows, r.Status = v) ∧
      (populateFilters rows).Status.Nodup) ∧
    ((∀ v ∈ (populateFilters rows).Category,
        v ≠ JVal.null ∧ v ≠ JVal.str "" ∧ ∃ r ∈ rows, r.Category = v) ∧
      (populateFilters rows).Category.Nodup) ∧
    ((∀ v ∈ (populateFilters rows).City,
        v ≠ "" ∧ ∃ r ∈ rows, r.City = some v) ∧
      (populateFilters rows).City.Nodup) ∧
    ((∀ v ∈ (populateFilters rows).State,
        v ≠ JVal.null ∧ v ≠ JVal.str "" ∧ ∃ r ∈ rows, r.State = v) ∧
      (populateFilters rows).State.Nodup) ∧
    ((∀ v ∈ (populateFilters rows).PoC,
        v ≠ JVal.null ∧ v ≠ JVal.str "" ∧ ∃ r ∈ rows, r.PoC = v) ∧
      (populateFilters rows).PoC.Nodup) ∧
    ((∀ v ∈ (populateFilters rows).GP,
        v ≠ JVal.null ∧ v ≠ JVal.str "" ∧ ∃ r ∈ rows, r.GP = v) ∧
      (populateFilters rows).GP.Nodup) ∧
    ((∀ v ∈ (populateFilters rows).Year,
        v ≠ JVal.null ∧ v ≠ JVal.str "" ∧ ∃ r ∈ rows, r.Year = v) ∧
      (populateFilters rows).Year.Nodup) := by
  unfold populateFilters
  rw [populateFilters_proj_status, populateFilters_proj_category,
    populateFilters_proj_city, populateFilters_proj_state,
    populateFilters_proj_poc, populateFilters_proj_gp,
    populateFilters_proj_year]
  exact ⟨⟨truthy_fold_spec Row.Status rows,
      foldl_facetAdd_nodup gStatus rows [] List.nodup_nil⟩,
    ⟨truthy_fold_spec Row.Category rows,
      foldl_facetAdd_nodup gCategory rows [] List.nodup_nil⟩,
    ⟨city_fold_spec rows,
      foldl_facetAdd_nodup gCity rows [] List.nodup_nil⟩,
    ⟨truthy_fold_spec Row.State rows,
      foldl_facetAdd_nodup gState rows [] List.nodup_nil⟩,
    ⟨truthy_fold_spec Row.PoC rows,
      foldl_facetAdd_nodup gPoC rows [] List.nodup_nil⟩,
    ⟨truthy_fold_spec Row.GP rows,
      foldl_facetAdd_nodup gGP rows [] List.nodup_nil⟩,
    ⟨year_fold_spec rows,
      foldl_facetAdd_nodup gYear rows [] List.nodup_nil⟩⟩

/-- Witness for C8: on the sample dataset the status facet value
`Completed` is non-null, non-empty and observed in a row. -/
theorem populateFilters_facets_clean_witness :
    JVal.str "Completed" ≠ JVal.null ∧ JVal.str "Completed" ≠ JVal.str "" ∧
      ∃ r ∈ wRows, r.Status = JVal.str "Completed" :=
  (populateFilters_facets_clean wRows).1.1 (JVal.str "Completed") (by decide)

end GreenMap
